import Mathlib

/-!
Shallow embedding of the compilation-cache core of `jax/_src/compiler.py`.

The orchestrator `compile_or_get_cached` and its helpers `_cache_read` and
`_cache_write` are modelled as pure functions.  Collaborator behaviour for a
single request (the outcome of the persistent-cache get and put calls, the
executable produced by the native compiler, and the wall-clock durations
measured with the monotonic clock) is passed in as explicit oracle data.
Every externally observable action of the orchestrator (key derivation,
cache lookup, cache write, compiler invocation, metric emission, warning
diagnostics, IR dumping) is recorded in an event trace, and exceptions are
modelled with `Except`.
-/

/-- Opaque loaded executable (`xc.LoadedExecutable`). -/
structure Exe where
  eid : Nat
deriving DecidableEq, Repr

/-- An IR module (`ir.IRModule`): its symbolic name (the `sym_name` attribute)
and its serialized bytecode body, which is opaque to this core
(`_module_to_bytecode` is a collaborator of the cache logic). -/
structure IRModule where
  sym_name : String
  body_bytes : List Nat
deriving DecidableEq, Repr

/-- The backend client (`xc.Client`): its platform string and the optional
`needs_str_ir` attribute.  `none` models a backend object that does not
expose the attribute at all, so that `getattr(backend, "needs_str_ir", True)`
falls back to the default `True`. -/
structure Backend where
  platform : String
  needs_str_ir : Option Bool
deriving DecidableEq, Repr

/-- Process environment and cache-subsystem state read by the orchestrator:
the value of the `XLA_FLAGS` environment variable (empty string when the
variable is absent, as with `os.environ.get("XLA_FLAGS", "")`), and whether
`compilation_cache.is_initialized()` returns true. -/
structure Env where
  xla_flags : String
  cache_initialized : Bool
deriving DecidableEq, Repr

/-- Process-wide configuration flags read by the compiler module. -/
structure Config where
  raise_persistent_cache_errors : Bool
  persistent_cache_min_compile_time_secs : Rat
  use_original_cache_key_generation : Bool
  dump_ir_to : String
deriving DecidableEq, Repr

/-- Wall-clock durations measured by the orchestrator with the monotonic
clock: the cache-retrieval latency and the compile duration. -/
structure Timing where
  retrievalTime : Rat
  compileTime : Rat
deriving DecidableEq, Repr

/-- What `backend_compile` hands to the native `backend.compile` entry
point: either the serialized bytecode of the module, or the module object
itself. -/
inductive CompilePayload
  | bytecode (b : List Nat)
  | moduleObj (m : IRModule)
deriving DecidableEq, Repr

/-- Exceptions that can escape the embedded functions. -/
inductive Err
  | cacheReadError
  | cacheWriteError
  | assertionError
deriving DecidableEq, Repr

/-- Observable events of one orchestrator request, in order. -/
inductive Event
  | dumpIR (module_name : String)
  | deriveKey
  | cacheLookup
  | warnReadError
  | metric (metric_name : String) (value : Rat)
  | compileCall (payload : CompilePayload) (with_host_callbacks : Bool)
  | cacheWrite (compile_time : Int)
  | warnWriteError
  | logNoWriteCallbacks
  | logNoWriteBelowThreshold
deriving DecidableEq, Repr

/-- Embeds `_module_to_bytecode`: serialization of the module to compact binary
bytecode; the byte content itself is opaque oracle data carried by the
module. -/
def _module_to_bytecode (m : IRModule) : List Nat :=
  m.body_bytes

/-- The Latin-1 alphanumerics above ASCII, as classified by the Unicode
database consulted by the Python regex class backslash-w on strings: the
two ordinal indicators, the superscript digits, the micro sign, the vulgar
fractions, and the accented letters of the Latin-1 Supplement block
(excluding the multiplication and division signs). -/
def latin1ExtraWordChar (c : Char) : Bool :=
  c.toNat = 170 || c.toNat = 178 || c.toNat = 179 || c.toNat = 181 ||
  c.toNat = 185 || c.toNat = 186 ||
  (188 ≤ c.toNat && c.toNat ≤ 190) ||
  (192 ≤ c.toNat && c.toNat ≤ 214) ||
  (216 ≤ c.toNat && c.toNat ≤ 246) ||
  (248 ≤ c.toNat && c.toNat ≤ 255)

/-- The word-character class of the Python regex backslash-w restricted to
the Latin-1 range: ASCII letters, digits and underscore, together with the
non-ASCII Latin-1 alphanumerics. -/
def latin1WordChar (c : Char) : Bool :=
  c.isAlphanum || c = '_' || latin1ExtraWordChar c

/-- The Unicode-aware word-character class backslash-w of Python 3 regexes
on strings.  The classification of codepoints above the Latin-1 range
comes from the Unicode database of the Python runtime, which is
collaborator data external to this source file; it is passed in as the
oracle `uniTable`, while the table for the Latin-1 range is embedded
explicitly. -/
def pythonWordChar (uniTable : Char → Bool) (c : Char) : Bool :=
  if c.toNat < 256 then latin1WordChar c else uniTable c

/-- Embeds `_make_string_safe_for_filename`: the regex substitution that
deletes every character outside the class of word characters together with
dot, the two parentheses, space and hyphen, keeping all the rest.
`uniTable` is the Unicode-database oracle for codepoints above the Latin-1
range. -/
def _make_string_safe_for_filename (uniTable : Char → Bool) (s : String) : String :=
  ⟨s.toList.filter fun c =>
    pythonWordChar uniTable c || c = '.' || c = ')' || c = '(' || c = ' ' || c = '-'⟩

/-- Filename built by `_dump_ir_to_file` for dump number `id` of a module
with the given name. -/
def dump_file_name (uniTable : Char → Bool) (id : Nat) (name : String) : String :=
  "jax_ir" ++ toString id ++ "_" ++ _make_string_safe_for_filename uniTable name ++ ".mlir"

/-- Embeds `backend_compile`: convert the module to bytecode unless the backend
explicitly flags the ability to take the module directly
(`getattr(backend, "needs_str_ir", True)`), then invoke the native compile
entry point, passing `host_callbacks` through only when it is non-empty.
The executable the native compiler returns is oracle data `compiled`.
The result is the payload handed to the native call, whether the
host-callbacks overload was used, and the executable. -/
def backend_compile (backend : Backend) (module : IRModule) (compiled : Exe)
    (host_callbacks : List Nat) : CompilePayload × Bool × Exe :=
  let built_c : CompilePayload :=
    if backend.needs_str_ir.getD true then
      CompilePayload.bytecode (_module_to_bytecode module)
    else
      CompilePayload.moduleObj module
  (built_c, !host_callbacks.isEmpty, compiled)

/-- Containment of `pat` as a contiguous sublist of `l`, used to model the
Python substring test `pat in s`. -/
def listContainsSub (l pat : List Char) : Bool :=
  match l with
  | [] => pat.isEmpty
  | _ :: t => pat.isPrefixOf l || listContainsSub t pat

/-- Python substring containment `pat in s` on strings. -/
def strContainsSub (s pat : String) : Bool :=
  listContainsSub s.toList pat.toList

/-- The platform list built by `compile_or_get_cached`: `["tpu", "gpu"]`,
with `"cpu"` appended when `XLA_FLAGS` contains the substring
`--xla_cpu_use_xla_runtime=true`. -/
def supported_platforms (xla_flags : String) : List String :=
  if strContainsSub xla_flags "--xla_cpu_use_xla_runtime=true" then
    ["tpu", "gpu", "cpu"]
  else
    ["tpu", "gpu"]

/-- The cache-eligibility test of `compile_or_get_cached`:
`compilation_cache.is_initialized() and backend.platform in supported_platforms`. -/
def use_compilation_cache (env : Env) (backend : Backend) : Bool :=
  env.cache_initialized && (supported_platforms env.xla_flags).contains backend.platform

/-- Python `int(q)` on a float value: truncation toward zero. -/
def pyIntTrunc (q : Rat) : Int :=
  q.num.tdiv q.den

/-- Embeds `_cache_read`: call `compilation_cache.get_executable_and_time` (its
outcome is the oracle `getResult`; `Except.error` models a raised
exception).  On an exception: re-raise when the
`jax_raise_persistent_cache_errors` flag is set, otherwise emit a warning
and return `(None, None)`. -/
def _cache_read (cfg : Config)
    (getResult : Except Unit (Option Exe × Option Int)) :
    Except Err (Option Exe × Option Int) × List Event :=
  match getResult with
  | Except.ok r => (Except.ok r, [Event.cacheLookup])
  | Except.error _ =>
    if cfg.raise_persistent_cache_errors then
      (Except.error Err.cacheReadError, [Event.cacheLookup])
    else
      (Except.ok (none, none), [Event.cacheLookup, Event.warnReadError])

/-- Embeds `_cache_write`: skip the write when `host_callbacks` is non-empty; skip
it when a minimum-compile-time threshold is configured (non-zero, Python
float truthiness) and the measured compile time is below it; otherwise call
`compilation_cache.put_executable_and_time` with the integer-truncated
compile duration (its outcome is the oracle `putResult`).  On an exception:
re-raise under the raise flag, otherwise warn and return. -/
def _cache_write (cfg : Config) (putResult : Except Unit Unit)
    (compile_time_secs : Rat) (host_callbacks : List Nat) :
    Except Err Unit × List Event :=
  if !host_callbacks.isEmpty then
    (Except.ok (), [Event.logNoWriteCallbacks])
  else if cfg.persistent_cache_min_compile_time_secs ≠ 0 ∧
      compile_time_secs < cfg.persistent_cache_min_compile_time_secs then
    (Except.ok (), [Event.logNoWriteBelowThreshold])
  else
    match putResult with
    | Except.ok _ =>
      (Except.ok (), [Event.cacheWrite (pyIntTrunc compile_time_secs)])
    | Except.error _ =>
      if cfg.raise_persistent_cache_errors then
        (Except.error Err.cacheWriteError, [Event.cacheWrite (pyIntTrunc compile_time_secs)])
      else
        (Except.ok (), [Event.cacheWrite (pyIntTrunc compile_time_secs), Event.warnWriteError])

/-- Embeds `compile_or_get_cached`: dump the IR when configured; check cache
eligibility; when ineligible call `backend_compile` directly; otherwise
derive the cache key, look the key up, and either return the retrieved
executable with the two cache metrics (after asserting the retrieved
compile time is present) or compile and attempt the admission-gated cache
write.  Oracle data: the outcomes of the cache get and put, the measured
timings, and the compiler result. -/
def compile_or_get_cached (cfg : Config) (env : Env) (backend : Backend)
    (computation : IRModule)
    (getResult : Except Unit (Option Exe × Option Int))
    (putResult : Except Unit Unit) (tm : Timing) (compiled : Exe)
    (host_callbacks : List Nat) : Except Err Exe × List Event :=
  let module_name := computation.sym_name
  let dumpEvents : List Event :=
    if cfg.dump_ir_to ≠ "" then [Event.dumpIR module_name] else []
  if !use_compilation_cache env backend then
    let (payload, withCb, exe) := backend_compile backend computation compiled host_callbacks
    (Except.ok exe, dumpEvents ++ [Event.compileCall payload withCb])
  else
    let pre := dumpEvents ++ [Event.deriveKey]
    let (readRes, readEvents) := _cache_read cfg getResult
    match readRes with
    | Except.error e => (Except.error e, pre ++ readEvents)
    | Except.ok (some exe, some t) =>
      (Except.ok exe, pre ++ readEvents ++
        [Event.metric "/jax/compilation_cache/cache_retrieval_time_sec" tm.retrievalTime,
         Event.metric "/jax/compilation_cache/original_compile_time_saved_sec"
           ((t : Rat) - tm.retrievalTime)])
    | Except.ok (some _, none) =>
      (Except.error Err.assertionError, pre ++ readEvents)
    | Except.ok (none, _) =>
      let (payload, withCb, exe) := backend_compile backend computation compiled host_callbacks
      let (writeRes, writeEvents) :=
        _cache_write cfg putResult tm.compileTime host_callbacks
      match writeRes with
      | Except.error e =>
        (Except.error e, pre ++ readEvents ++ [Event.compileCall payload withCb] ++ writeEvents)
      | Except.ok _ =>
        (Except.ok exe, pre ++ readEvents ++ [Event.compileCall payload withCb] ++ writeEvents)

/-- Events that interact with the persistent cache: key derivation, lookup
and write. -/
def isCacheInteraction : Event → Bool
  | Event.deriveKey => true
  | Event.cacheLookup => true
  | Event.cacheWrite _ => true
  | _ => false

/-- Compiler-invocation events. -/
def isCompileCall : Event → Bool
  | Event.compileCall _ _ => true
  | _ => false

/-- Metric-emission events. -/
def isMetric : Event → Bool
  | Event.metric _ _ => true
  | _ => false

/-- Cache-write events. -/
def isCacheWrite : Event → Bool
  | Event.cacheWrite _ => true
  | _ => false

/-- A numpy array of device ids as produced by `np.array(device_assignment)`
on a flat or nested list: either one-dimensional or two-dimensional. -/
inductive NpArr
  | d1 (l : List Nat)
  | d2 (g : List (List Nat))
deriving DecidableEq, Repr

/-- Whether a two-dimensional value is rectangular (every row has the
length of the first row), the well-formedness condition under which nested
Python lists really form a two-dimensional numpy array. -/
def NpArr.rectangular : NpArr → Bool
  | NpArr.d1 _ => true
  | NpArr.d2 g => g.all fun row => row.length == (g.headD []).length

/-- Dimension `shape[0]` of the array. -/
def NpArr.shape0 : NpArr → Nat
  | NpArr.d1 l => l.length
  | NpArr.d2 g => g.length

/-- Dimension `shape[1]` of the array; `none` models the `IndexError` that accessing
`shape[1]` of a one-dimensional array raises. -/
def NpArr.shape1 : NpArr → Option Nat
  | NpArr.d1 _ => none
  | NpArr.d2 g => some (g.headD []).length

/-- Errors raised by `get_compile_options`: the two `ValueError`s, each
carrying the data interpolated into their message (the possibly reshaped
device assignment and the expected count), and the `IndexError` from
reading `shape[1]` of a one-dimensional array. -/
inductive OptError
  | replicasMismatch (assignment : NpArr) (expected : Nat)
  | partitionsMismatch (assignment : NpArr) (expected : Nat)
  | indexError
deriving DecidableEq, Repr

/-- The device-assignment block of `get_compile_options`: reshape a
one-dimensional assignment to a column when `num_partitions == 1`, then
check `shape[0]` against `num_replicas` and `shape[1]` against
`num_partitions`, raising on the first mismatch. -/
def validateDA (num_replicas num_partitions : Nat) (a0 : NpArr) :
    Except OptError NpArr :=
  let a : NpArr :=
    match a0 with
    | NpArr.d1 l =>
      if num_partitions = 1 then NpArr.d2 (l.map fun x => [x]) else NpArr.d1 l
    | NpArr.d2 g => NpArr.d2 g
  if a.shape0 ≠ num_replicas then
    Except.error (OptError.replicasMismatch a num_replicas)
  else
    match a.shape1 with
    | none => Except.error OptError.indexError
    | some s1 =>
      if s1 ≠ num_partitions then
        Except.error (OptError.partitionsMismatch a num_partitions)
      else
        Except.ok a

/-- The fields of the `xc.CompileOptions` record that `get_compile_options`
populates and that this development reasons about. -/
structure XCompileOptions where
  num_replicas : Nat
  num_partitions : Nat
  use_spmd_partitioning : Bool
  use_auto_spmd_partitioning : Bool
  fdo_profile : Option (List Nat)
  auto_spmd_partitioning_mesh_shape : Option (List Nat)
  auto_spmd_partitioning_mesh_ids : Option (List Nat)
  device_assignment : Option NpArr
  profile_version : Int
deriving DecidableEq, Repr

/-- Result of `get_compile_options`: the populated options record together
with whether the error-level diagnostic about an XLA-AutoFDO profile
version of 0 was emitted. -/
structure GetCompileOptionsOut where
  options : XCompileOptions
  fdo_error_logged : Bool
deriving DecidableEq, Repr

/-- Embeds `get_compile_options`: populate the options record, validate and attach
the device assignment when one is given, and resolve the XLA-AutoFDO
profile version with the three-tier precedence of the source (flag value if
positive, else the provider value if nonzero, else the sentinel -1 with an
error-level diagnostic).  `jax_xla_profile_version` is the configured flag
and `latest_profile_version` the value the `get_latest_profile_version`
provider returns. -/
def get_compile_options (num_replicas num_partitions : Nat)
    (device_assignment : Option NpArr)
    (use_spmd_partitioning use_auto_spmd_partitioning : Bool)
    (auto_spmd_partitioning_mesh_shape auto_spmd_partitioning_mesh_ids : Option (List Nat))
    (fdo_profile : Option (List Nat))
    (jax_xla_profile_version latest_profile_version : Int) :
    Except OptError GetCompileOptionsOut :=
  let daR : Except OptError (Option NpArr) :=
    match device_assignment with
    | none => Except.ok none
    | some a => (validateDA num_replicas num_partitions a).map some
  match daR with
  | Except.error e => Except.error e
  | Except.ok da =>
    let pv : Int × Bool :=
      if jax_xla_profile_version > 0 then
        (jax_xla_profile_version, false)
      else if latest_profile_version ≠ 0 then
        (latest_profile_version, false)
      else
        (-1, true)
    Except.ok
      { options :=
          { num_replicas := num_replicas
            num_partitions := num_partitions
            use_spmd_partitioning := use_spmd_partitioning
            use_auto_spmd_partitioning := use_auto_spmd_partitioning
            fdo_profile := fdo_profile
            auto_spmd_partitioning_mesh_shape :=
              if use_auto_spmd_partitioning then
                some (auto_spmd_partitioning_mesh_shape.getD [])
              else none
            auto_spmd_partitioning_mesh_ids :=
              if use_auto_spmd_partitioning then
                some (auto_spmd_partitioning_mesh_ids.getD [])
              else none
            device_assignment := da
            profile_version := pv.1 }
        fdo_error_logged := pv.2 }

/-- Fixture: default configuration (raise flag off, no threshold, no IR
dump). -/
def cfgW : Config := Config.mk false 0 false ""

/-- Fixture: configuration with the raise-on-cache-error flag set. -/
def cfgRaise : Config := Config.mk true 0 false ""

/-- Fixture: configuration with a 2-second minimum-compile-time threshold. -/
def cfgMin : Config := Config.mk false 2 false ""

/-- Fixture: empty `XLA_FLAGS`, cache subsystem initialized. -/
def envW : Env := Env.mk "" true

/-- Fixture: a CPU backend (ineligible without the CPU-enabling flag). -/
def backendCpu : Backend := Backend.mk "cpu" none

/-- Fixture: a TPU backend (always eligible). -/
def backendTpu : Backend := Backend.mk "tpu" none

/-- Fixture: a small module. -/
def moduleW : IRModule := IRModule.mk "jit_f" [1, 2, 3]

/-- Fixture: the freshly compiled executable. -/
def exeW : Exe := Exe.mk 42

/-- Fixture: a cached executable distinct from the compiled one. -/
def exeHit : Exe := Exe.mk 7

/-- Fixture: a 1-second lookup latency and a 5-second compile time. -/
def tmW : Timing := Timing.mk 1 5

/-- The sanitization character class, restricted to ASCII codepoints,
agrees pointwise with the explicitly enumerated class
A-Z, a-z, 0-9, underscore, dot, parentheses, space, hyphen. -/
theorem pythonWordChar_ascii_class (uniTable : Char → Bool) (c : Char)
    (h : c.toNat < 128) :
    (pythonWordChar uniTable c || c = '.' || c = ')' || c = '(' || c = ' ' || c = '-') =
    decide (('A' ≤ c ∧ c ≤ 'Z') ∨ ('a' ≤ c ∧ c ≤ 'z') ∨ ('0' ≤ c ∧ c ≤ '9') ∨
      c = '_' ∨ c = '.' ∨ c = '(' ∨ c = ')' ∨ c = ' ' ∨ c = '-') := by
  have h256 : c.toNat < 256 := by omega
  have hextra : latin1ExtraWordChar c = false := by
    unfold latin1ExtraWordChar
    simp only [Bool.or_eq_false_iff, Bool.and_eq_false_iff, decide_eq_false_iff_not,
      not_le]
    omega
  have hA : ('A').val = 65 := rfl
  have hZ : ('Z').val = 90 := rfl
  have ha : ('a').val = 97 := rfl
  have hz : ('z').val = 122 := rfl
  have h0 : ('0').val = 48 := rfl
  have h9 : ('9').val = 57 := rfl
  unfold pythonWordChar latin1WordChar
  rw [if_pos h256, hextra, Bool.or_false]
  rw [Bool.eq_iff_iff]
  simp only [Char.isAlphanum, Char.isAlpha, Char.isDigit, Char.isUpper,
    Char.isLower, Bool.or_eq_true, Bool.and_eq_true, decide_eq_true_eq, Char.le_def,
    hA, hZ, ha, hz, h0, h9, ge_iff_le]
  tauto

/-- C7 counterexample: at the module name consisting of the single letter
e-acute (a non-ASCII word character of the Unicode-aware regex class), the
program keeps the character, while the claimed class
A-Z, a-z, 0-9, underscore, dot, parentheses, space, hyphen removes it; so
the sanitization does not remove exactly the characters outside that
class.  The codepoint lies in the embedded Latin-1 row of the word table,
so the oracle for higher codepoints is irrelevant and is instantiated with
the constantly-false table. -/
theorem claim_C7_counterexample :
    _make_string_safe_for_filename (fun _ => false) "é" = "é" ∧
    ("é".toList.filter fun c =>
      decide (('A' ≤ c ∧ c ≤ 'Z') ∨ ('a' ≤ c ∧ c ≤ 'z') ∨ ('0' ≤ c ∧ c ≤ '9') ∨
        c = '_' ∨ c = '.' ∨ c = '(' ∨ c = ')' ∨ c = ' ' ∨ c = '-')) = [] := by
  constructor
  · rfl
  · decide

/-- C7 amended: the filename sanitization removes exactly the characters
outside the class of Python word characters (the Unicode-aware
backslash-w) together with dot, parentheses, space and hyphen; restricted
to ASCII module names this class is exactly
A-Z, a-z, 0-9, underscore, dot, parentheses, space, hyphen, while a
non-ASCII word character such as the letter e-acute is kept rather than
removed, whatever the table above the Latin-1 range says. -/
theorem claim_C7_amended (uniTable : Char → Bool) (s : String)
    (hascii : ∀ c ∈ s.toList, c.toNat < 128) :
    (_make_string_safe_for_filename uniTable s =
      ⟨s.toList.filter fun c =>
        decide (('A' ≤ c ∧ c ≤ 'Z') ∨ ('a' ≤ c ∧ c ≤ 'z') ∨ ('0' ≤ c ∧ c ≤ '9') ∨
          c = '_' ∨ c = '.' ∨ c = '(' ∨ c = ')' ∨ c = ' ' ∨ c = '-')⟩)
    ∧ (∀ table2 : Char → Bool, _make_string_safe_for_filename table2 "é" = "é") := by
  constructor
  · unfold _make_string_safe_for_filename
    congr 1
    apply List.filter_congr
    intro c hc
    exact pythonWordChar_ascii_class uniTable c (hascii c hc)
  · intro table2
    rfl

/-- Witness for the amended C7 at an ASCII module name containing both
kept and removed characters. -/
theorem claim_C7_amended_witness :
    (∀ c ∈ "jit_f (a)*2.mlir".toList, c.toNat < 128) ∧
    ((_make_string_safe_for_filename (fun _ => false) "jit_f (a)*2.mlir" =
      ⟨"jit_f (a)*2.mlir".toList.filter fun c =>
        decide (('A' ≤ c ∧ c ≤ 'Z') ∨ ('a' ≤ c ∧ c ≤ 'z') ∨ ('0' ≤ c ∧ c ≤ '9') ∨
          c = '_' ∨ c = '.' ∨ c = '(' ∨ c = ')' ∨ c = ' ' ∨ c = '-')⟩)
    ∧ (∀ table2 : Char → Bool, _make_string_safe_for_filename table2 "é" = "é")) :=
  ⟨by decide, claim_C7_amended (fun _ => false) "jit_f (a)*2.mlir" (by decide)⟩

/-- C9: a backend without a `needs_str_ir` attribute is treated as if the
attribute were true, so the module is serialized to bytecode before the
native compile call; the module object is passed directly exactly when the
backend sets `needs_str_ir` to false. -/
theorem claim_C9_needs_str_ir_default (backend : Backend) (module : IRModule)
    (compiled : Exe) (hcbs : List Nat) :
    ((backend.needs_str_ir = none ∨ backend.needs_str_ir = some true) →
      (backend_compile backend module compiled hcbs).1 =
        CompilePayload.bytecode (_module_to_bytecode module))
    ∧ (backend.needs_str_ir = some false →
      (backend_compile backend module compiled hcbs).1 = CompilePayload.moduleObj module) := by
  constructor
  · rintro (h | h) <;> simp [backend_compile, h]
  · intro h
    simp [backend_compile, h]

/-- Witness for C9 at a backend with no `needs_str_ir` attribute. -/
theorem claim_C9_witness :
    (backend_compile (Backend.mk "tpu" none) (IRModule.mk "jit_f" [7, 8]) (Exe.mk 0) []).1 =
      CompilePayload.bytecode (_module_to_bytecode (IRModule.mk "jit_f" [7, 8])) :=
  (claim_C9_needs_str_ir_default (Backend.mk "tpu" none) (IRModule.mk "jit_f" [7, 8])
    (Exe.mk 0) []).1 (Or.inl rfl)

/-- C8: when the write is admitted (empty host callbacks and the threshold
gate passes), the duration handed to the persistent-cache put is the
measured compile duration truncated toward zero to an integer. -/
theorem claim_C8_truncated_duration (cfg : Config) (putResult : Except Unit Unit) (t : Rat)
    (h : cfg.persistent_cache_min_compile_time_secs = 0 ∨
      cfg.persistent_cache_min_compile_time_secs ≤ t) :
    (_cache_write cfg putResult t []).2.head? = some (Event.cacheWrite (pyIntTrunc t)) := by
  have hcond : ¬ (cfg.persistent_cache_min_compile_time_secs ≠ 0 ∧
      t < cfg.persistent_cache_min_compile_time_secs) := by
    rcases h with h | h
    · simp [h]
    · rintro ⟨-, hlt⟩
      exact absurd h (not_le.mpr hlt)
  rcases putResult with u | u <;>
    by_cases hr : cfg.raise_persistent_cache_errors <;>
      simp [_cache_write, hcond, hr]

/-- Witness for C8: a compile that took 2.7 seconds is recorded as 2
seconds (truncation, not rounding). -/
theorem claim_C8_witness :
    ((0 : Rat) = 0 ∨ (0 : Rat) ≤ mkRat 27 10) ∧
    (_cache_write (Config.mk false 0 false "") (Except.ok ()) (mkRat 27 10) []).2.head? =
      some (Event.cacheWrite 2) := by
  refine ⟨Or.inl rfl, ?_⟩
  have h := claim_C8_truncated_duration (Config.mk false 0 false "") (Except.ok ())
    (mkRat 27 10) (Or.inl rfl)
  rw [h]
  decide

/-- C5: `get_compile_options` resolves the XLA-AutoFDO profile version with
three-tier precedence: the configured flag when positive, else the provider
value when nonzero, else the sentinel -1 together with an error-level
diagnostic, and the call still succeeds in every case. -/
theorem claim_C5_fdo_precedence (num_replicas num_partitions : Nat) (flag provider : Int) :
    (get_compile_options num_replicas num_partitions none true false none none none
        flag provider).map
      (fun out => (out.options.profile_version, out.fdo_error_logged)) =
    Except.ok (if flag > 0 then (flag, false)
      else if provider ≠ 0 then (provider, false)
      else (-1, true)) := by
  unfold get_compile_options
  split_ifs <;> simp_all [Except.map]

/-- C6 counterexample: a one-dimensional assignment of length 3 with
`num_partitions == 1` is not accepted when `num_replicas` is 2; the claim
says such an assignment is always accepted, but the code raises the
replica-mismatch `ValueError` after the column reshape. -/
theorem claim_C6_counterexample :
    get_compile_options 2 1 (some (NpArr.d1 [0, 0, 0])) true false none none none 1 1 =
      Except.error (OptError.replicasMismatch (NpArr.d2 [[0], [0], [0]]) 2) := by
  rfl

/-- C6 amended: a one-dimensional assignment of length R with
`num_partitions == 1` is reshaped to the column shape (R, 1) and then
subject to the same validation as any other assignment, so it is accepted
exactly when R equals `num_replicas`; a two-dimensional assignment is
accepted exactly when its shape is (`num_replicas`, `num_partitions`); each
rejection carries the (possibly reshaped) actual assignment together with
the expected count of the first mismatching dimension; and a
one-dimensional assignment that is not reshaped (because
`num_partitions != 1`) but passes the replica check fails with an index
error rather than a shape-quoting error. -/
theorem claim_C6_amended (num_replicas num_partitions : Nat) (l : List Nat)
    (g : List (List Nat)) (hg : (NpArr.d2 g).rectangular = true) (hl0 : l ≠ []) :
    (num_partitions = 1 →
      validateDA num_replicas num_partitions (NpArr.d1 l) =
        (if l.length = num_replicas then Except.ok (NpArr.d2 (l.map fun x => [x]))
         else Except.error
           (OptError.replicasMismatch (NpArr.d2 (l.map fun x => [x])) num_replicas)))
    ∧ (validateDA num_replicas num_partitions (NpArr.d2 g) = Except.ok (NpArr.d2 g) ↔
        g.length = num_replicas ∧ (g.headD []).length = num_partitions)
    ∧ (g.length ≠ num_replicas →
        validateDA num_replicas num_partitions (NpArr.d2 g) =
          Except.error (OptError.replicasMismatch (NpArr.d2 g) num_replicas))
    ∧ (g.length = num_replicas → (g.headD []).length ≠ num_partitions →
        validateDA num_replicas num_partitions (NpArr.d2 g) =
          Except.error (OptError.partitionsMismatch (NpArr.d2 g) num_partitions))
    ∧ (num_partitions ≠ 1 → l.length = num_replicas →
        validateDA num_replicas num_partitions (NpArr.d1 l) =
          Except.error OptError.indexError)
    ∧ (∀ a : NpArr,
        (get_compile_options num_replicas num_partitions (some a) true false none none none
            1 1).map (fun out => out.options.device_assignment) =
          (validateDA num_replicas num_partitions a).map some) := by
  refine ⟨?_, ?_, ?_, ?_, ?_, ?_⟩
  · intro hp
    subst hp
    rcases l with _ | ⟨x, t⟩
    · exact absurd rfl hl0
    · by_cases hl : (x :: t).length = num_replicas
      · simp [validateDA, NpArr.shape0, NpArr.shape1, hl]
        exact hl
      · simp [validateDA, NpArr.shape0, NpArr.shape1, hl]
  · constructor
    · intro h
      by_cases h1 : g.length = num_replicas
      · by_cases h2 : (g.headD []).length = num_partitions
        · exact ⟨h1, h2⟩
        · simp only [List.headD_eq_head?] at h2
          simp [validateDA, NpArr.shape0, NpArr.shape1, h1, h2] at h
      · simp [validateDA, NpArr.shape0, NpArr.shape1, h1] at h
    · rintro ⟨h1, h2⟩
      simp only [List.headD_eq_head?] at h2
      simp [validateDA, NpArr.shape0, NpArr.shape1, h1, h2]
  · intro h1
    simp [validateDA, NpArr.shape0, NpArr.shape1, h1]
  · intro h1 h2
    simp only [List.headD_eq_head?] at h2
    simp [validateDA, NpArr.shape0, NpArr.shape1, h1, h2]
  · intro hp hl
    simp [validateDA, NpArr.shape0, NpArr.shape1, hp, hl]
  · intro a
    unfold get_compile_options
    rcases hv : validateDA num_replicas num_partitions a with v | v <;>
      simp [hv, Except.map]

/-- Witness for the amended C6 at `num_replicas = 2`, `num_partitions = 3`,
a nonempty one-dimensional assignment and a rectangular two-dimensional
assignment of shape (2, 3). -/
theorem claim_C6_amended_witness :
    (NpArr.d2 [[1, 2, 3], [4, 5, 6]]).rectangular = true ∧
    ([5, 6] : List Nat) ≠ [] ∧
    (((3 : Nat) = 1 →
      validateDA 2 3 (NpArr.d1 [5, 6]) =
        (if ([5, 6] : List Nat).length = 2 then
          Except.ok (NpArr.d2 (([5, 6] : List Nat).map fun x => [x]))
         else Except.error
           (OptError.replicasMismatch (NpArr.d2 (([5, 6] : List Nat).map fun x => [x])) 2)))
    ∧ (validateDA 2 3 (NpArr.d2 [[1, 2, 3], [4, 5, 6]]) =
          Except.ok (NpArr.d2 [[1, 2, 3], [4, 5, 6]]) ↔
        ([[1, 2, 3], [4, 5, 6]] : List (List Nat)).length = 2 ∧
        (([[1, 2, 3], [4, 5, 6]] : List (List Nat)).headD []).length = 3)
    ∧ (([[1, 2, 3], [4, 5, 6]] : List (List Nat)).length ≠ 2 →
        validateDA 2 3 (NpArr.d2 [[1, 2, 3], [4, 5, 6]]) =
          Except.error (OptError.replicasMismatch (NpArr.d2 [[1, 2, 3], [4, 5, 6]]) 2))
    ∧ (([[1, 2, 3], [4, 5, 6]] : List (List Nat)).length = 2 →
        (([[1, 2, 3], [4, 5, 6]] : List (List Nat)).headD []).length ≠ 3 →
        validateDA 2 3 (NpArr.d2 [[1, 2, 3], [4, 5, 6]]) =
          Except.error (OptError.partitionsMismatch (NpArr.d2 [[1, 2, 3], [4, 5, 6]]) 3))
    ∧ ((3 : Nat) ≠ 1 → ([5, 6] : List Nat).length = 2 →
        validateDA 2 3 (NpArr.d1 [5, 6]) = Except.error OptError.indexError)
    ∧ (∀ a : NpArr,
        (get_compile_options 2 3 (some a) true false none none none 1 1).map
            (fun out => out.options.device_assignment) =
          (validateDA 2 3 a).map some)) := by
  refine ⟨by decide, by decide, ?_⟩
  exact claim_C6_amended 2 3 [5, 6] [[1, 2, 3], [4, 5, 6]] (by decide) (by decide)

/-- The write helper never fails with the assertion error. -/
theorem cache_write_no_assertion (cfg : Config) (putResult : Except Unit Unit)
    (t : Rat) (hcbs : List Nat) :
    (_cache_write cfg putResult t hcbs).1 ≠ Except.error Err.assertionError := by
  unfold _cache_write
  rcases putResult with u | u <;>
    by_cases hr : cfg.raise_persistent_cache_errors <;>
      split_ifs <;> simp_all

/-- The write helper emits no read-error warning. -/
theorem cache_write_no_warnRead (cfg : Config) (putResult : Except Unit Unit)
    (t : Rat) (hcbs : List Nat) :
    Event.warnReadError ∉ (_cache_write cfg putResult t hcbs).2 := by
  unfold _cache_write
  rcases putResult with u | u <;>
    by_cases hr : cfg.raise_persistent_cache_errors <;>
      split_ifs <;> simp_all

/-- The write helper emits no compiler-invocation event and no metric. -/
theorem cache_write_no_compile (cfg : Config) (putResult : Except Unit Unit)
    (t : Rat) (hcbs : List Nat) :
    (_cache_write cfg putResult t hcbs).2.any isCompileCall = false := by
  unfold _cache_write
  rcases putResult with u | u <;>
    by_cases hr : cfg.raise_persistent_cache_errors <;>
      split_ifs <;> simp_all [isCompileCall]

/-- On an eligible request the trace always starts with the optional IR
dump, the key derivation and the cache lookup. -/
theorem eligible_trace_shape (cfg : Config) (env : Env) (backend : Backend)
    (computation : IRModule) (getR : Except Unit (Option Exe × Option Int))
    (putR : Except Unit Unit) (tm : Timing) (compiled : Exe) (hcbs : List Nat)
    (hu : use_compilation_cache env backend = true) :
    ∃ rest,
      (compile_or_get_cached cfg env backend computation getR putR tm compiled hcbs).2 =
        (if cfg.dump_ir_to ≠ "" then [Event.dumpIR computation.sym_name] else []) ++
          Event.deriveKey :: Event.cacheLookup :: rest := by
  unfold compile_or_get_cached _cache_read
  rw [hu]
  rcases getR with u | ⟨a, b⟩
  · by_cases hr : cfg.raise_persistent_cache_errors
    · exact ⟨[], by simp [hr]⟩
    · refine ⟨Event.warnReadError ::
        Event.compileCall (backend_compile backend computation compiled hcbs).1
          (backend_compile backend computation compiled hcbs).2.1 ::
        (_cache_write cfg putR tm.compileTime hcbs).2, ?_⟩
      rcases hw : (_cache_write cfg putR tm.compileTime hcbs).1 with e | v <;>
        simp [hr, hw]
  · rcases a with _ | e
    · refine ⟨Event.compileCall (backend_compile backend computation compiled hcbs).1
          (backend_compile backend computation compiled hcbs).2.1 ::
        (_cache_write cfg putR tm.compileTime hcbs).2, ?_⟩
      rcases hw : (_cache_write cfg putR tm.compileTime hcbs).1 with e | v <;>
        simp [hw]
    · rcases b with _ | t
      · exact ⟨[], by simp⟩
      · exact ⟨[Event.metric "/jax/compilation_cache/cache_retrieval_time_sec" tm.retrievalTime,
          Event.metric "/jax/compilation_cache/original_compile_time_saved_sec"
            ((t : Rat) - tm.retrievalTime)], by simp⟩

/-- C1: the persistent cache is touched (key derivation, lookup or write)
exactly when the cache subsystem is initialized and the backend platform is
in the supported set (tpu, gpu, and cpu only under the XLA_FLAGS substring
enabling the CPU runtime); an ineligible request goes straight to
`backend_compile` with no cache interaction of any kind. -/
theorem claim_C1_eligibility_gate (cfg : Config) (env : Env) (backend : Backend)
    (computation : IRModule) (getR : Except Unit (Option Exe × Option Int))
    (putR : Except Unit Unit) (tm : Timing) (compiled : Exe) (hcbs : List Nat) :
    ((compile_or_get_cached cfg env backend computation getR putR tm compiled hcbs).2.any
        isCacheInteraction = use_compilation_cache env backend)
    ∧ (use_compilation_cache env backend = false →
        compile_or_get_cached cfg env backend computation getR putR tm compiled hcbs =
          (Except.ok compiled,
            (if cfg.dump_ir_to ≠ "" then [Event.dumpIR computation.sym_name] else []) ++
              [Event.compileCall (backend_compile backend computation compiled hcbs).1
                (backend_compile backend computation compiled hcbs).2.1])) := by
  have hinelig : use_compilation_cache env backend = false →
      compile_or_get_cached cfg env backend computation getR putR tm compiled hcbs =
        (Except.ok compiled,
          (if cfg.dump_ir_to ≠ "" then [Event.dumpIR computation.sym_name] else []) ++
            [Event.compileCall (backend_compile backend computation compiled hcbs).1
              (backend_compile backend computation compiled hcbs).2.1]) := by
    intro hu
    unfold compile_or_get_cached
    rw [hu]
    simp [backend_compile]
  refine ⟨?_, hinelig⟩
  by_cases hu : use_compilation_cache env backend
  · obtain ⟨rest, hrest⟩ :=
      eligible_trace_shape cfg env backend computation getR putR tm compiled hcbs hu
    rw [hrest, hu]
    simp [isCacheInteraction]
  · simp only [Bool.not_eq_true] at hu
    rw [hinelig hu, hu]
    by_cases hd : cfg.dump_ir_to = "" <;> simp [hd, isCacheInteraction]

/-- Witness for C1 at an ineligible request: platform cpu without the
CPU-enabling flag, cache initialized. -/
theorem claim_C1_witness :
    ((compile_or_get_cached cfgW envW backendCpu moduleW (Except.ok (none, none))
        (Except.ok ()) tmW exeW []).2.any isCacheInteraction =
      use_compilation_cache envW backendCpu)
    ∧ (use_compilation_cache envW backendCpu = false →
        compile_or_get_cached cfgW envW backendCpu moduleW (Except.ok (none, none))
            (Except.ok ()) tmW exeW [] =
          (Except.ok exeW,
            (if cfgW.dump_ir_to ≠ "" then [Event.dumpIR moduleW.sym_name] else []) ++
              [Event.compileCall (backend_compile backendCpu moduleW exeW []).1
                (backend_compile backendCpu moduleW exeW []).2.1])) :=
  claim_C1_eligibility_gate cfgW envW backendCpu moduleW (Except.ok (none, none))
    (Except.ok ()) tmW exeW []

/-- C4: on an eligible lookup that returns an executable with its recorded
compile time, the orchestrator returns the retrieved executable, never
invokes the compiler, and records exactly two metrics: the lookup latency
and the recorded compile time minus the lookup latency, unclamped. -/
theorem claim_C4_hit_metrics (cfg : Config) (env : Env) (backend : Backend)
    (computation : IRModule) (putR : Except Unit Unit) (tm : Timing)
    (compiled : Exe) (hcbs : List Nat) (e : Exe) (t : Int)
    (hu : use_compilation_cache env backend = true) :
    (compile_or_get_cached cfg env backend computation (Except.ok (some e, some t))
        putR tm compiled hcbs).1 = Except.ok e
    ∧ (compile_or_get_cached cfg env backend computation (Except.ok (some e, some t))
        putR tm compiled hcbs).2.any isCompileCall = false
    ∧ (compile_or_get_cached cfg env backend computation (Except.ok (some e, some t))
        putR tm compiled hcbs).2.filter isMetric =
      [Event.metric "/jax/compilation_cache/cache_retrieval_time_sec" tm.retrievalTime,
       Event.metric "/jax/compilation_cache/original_compile_time_saved_sec"
         ((t : Rat) - tm.retrievalTime)] := by
  unfold compile_or_get_cached _cache_read
  rw [hu]
  by_cases hd : cfg.dump_ir_to = "" <;>
    simp [hd, isCompileCall, isMetric]

/-- Witness for C4: the recorded compile time 0 with a 1-second lookup
yields a negative time-saved metric, recorded as-is. -/
theorem claim_C4_witness :
    (compile_or_get_cached cfgW envW backendTpu moduleW (Except.ok (some exeHit, some 0))
        (Except.ok ()) tmW exeW []).1 = Except.ok exeHit
    ∧ (compile_or_get_cached cfgW envW backendTpu moduleW (Except.ok (some exeHit, some 0))
        (Except.ok ()) tmW exeW []).2.any isCompileCall = false
    ∧ (compile_or_get_cached cfgW envW backendTpu moduleW (Except.ok (some exeHit, some 0))
        (Except.ok ()) tmW exeW []).2.filter isMetric =
      [Event.metric "/jax/compilation_cache/cache_retrieval_time_sec" tmW.retrievalTime,
       Event.metric "/jax/compilation_cache/original_compile_time_saved_sec"
         (((0 : Int) : Rat) - tmW.retrievalTime)] :=
  claim_C4_hit_metrics cfgW envW backendTpu moduleW (Except.ok ()) tmW exeW [] exeHit 0
    (by decide)

/-- C2: on an eligible lookup whose persistent-cache get raises, the raise
flag makes the exception propagate before any compile is attempted; with
the flag off, a warning diagnostic is emitted, the lookup result is treated
as (None, None), and the request proceeds exactly as on a cache miss (the
same result and the same trace except for the inserted warning). -/
theorem claim_C2_read_error_policy (cfg : Config) (env : Env) (backend : Backend)
    (computation : IRModule) (putR : Except Unit Unit) (tm : Timing)
    (compiled : Exe) (hcbs : List Nat)
    (hu : use_compilation_cache env backend = true) :
    (cfg.raise_persistent_cache_errors = true →
      compile_or_get_cached cfg env backend computation (Except.error ()) putR tm
          compiled hcbs =
        (Except.error Err.cacheReadError,
          (if cfg.dump_ir_to ≠ "" then [Event.dumpIR computation.sym_name] else []) ++
            [Event.deriveKey, Event.cacheLookup]))
    ∧ (cfg.raise_persistent_cache_errors = false →
        (compile_or_get_cached cfg env backend computation (Except.error ()) putR tm
            compiled hcbs).1 =
          (compile_or_get_cached cfg env backend computation (Except.ok (none, none))
            putR tm compiled hcbs).1
        ∧ ∃ rest,
            (compile_or_get_cached cfg env backend computation (Except.error ()) putR tm
                compiled hcbs).2 =
              (if cfg.dump_ir_to ≠ "" then [Event.dumpIR computation.sym_name] else []) ++
                [Event.deriveKey, Event.cacheLookup, Event.warnReadError] ++ rest
          ∧ (compile_or_get_cached cfg env backend computation (Except.ok (none, none))
                putR tm compiled hcbs).2 =
              (if cfg.dump_ir_to ≠ "" then [Event.dumpIR computation.sym_name] else []) ++
                [Event.deriveKey, Event.cacheLookup] ++ rest) := by
  constructor
  · intro hr
    unfold compile_or_get_cached _cache_read
    rw [hu]
    simp [hr]
  · intro hr
    constructor
    · unfold compile_or_get_cached _cache_read
      rw [hu]
      rcases hw : (_cache_write cfg putR tm.compileTime hcbs).1 with e | v <;>
        simp [hr, hw]
    · refine ⟨Event.compileCall (backend_compile backend computation compiled hcbs).1
          (backend_compile backend computation compiled hcbs).2.1 ::
        (_cache_write cfg putR tm.compileTime hcbs).2, ?_, ?_⟩ <;>
      · unfold compile_or_get_cached _cache_read
        rw [hu]
        rcases hw : (_cache_write cfg putR tm.compileTime hcbs).1 with e | v <;>
          simp [hr, hw]

/-- Witness for C2 on a TPU request with the raise flag off. -/
theorem claim_C2_witness :
    use_compilation_cache envW backendTpu = true ∧
    ((cfgW.raise_persistent_cache_errors = true →
      compile_or_get_cached cfgW envW backendTpu moduleW (Except.error ()) (Except.ok ())
          tmW exeW [] =
        (Except.error Err.cacheReadError,
          (if cfgW.dump_ir_to ≠ "" then [Event.dumpIR moduleW.sym_name] else []) ++
            [Event.deriveKey, Event.cacheLookup]))
    ∧ (cfgW.raise_persistent_cache_errors = false →
        (compile_or_get_cached cfgW envW backendTpu moduleW (Except.error ()) (Except.ok ())
            tmW exeW []).1 =
          (compile_or_get_cached cfgW envW backendTpu moduleW (Except.ok (none, none))
            (Except.ok ()) tmW exeW []).1
        ∧ ∃ rest,
            (compile_or_get_cached cfgW envW backendTpu moduleW (Except.error ())
                (Except.ok ()) tmW exeW []).2 =
              (if cfgW.dump_ir_to ≠ "" then [Event.dumpIR moduleW.sym_name] else []) ++
                [Event.deriveKey, Event.cacheLookup, Event.warnReadError] ++ rest
          ∧ (compile_or_get_cached cfgW envW backendTpu moduleW (Except.ok (none, none))
                (Except.ok ()) tmW exeW []).2 =
              (if cfgW.dump_ir_to ≠ "" then [Event.dumpIR moduleW.sym_name] else []) ++
                [Event.deriveKey, Event.cacheLookup] ++ rest)) :=
  ⟨by decide,
   claim_C2_read_error_policy cfgW envW backendTpu moduleW (Except.ok ()) tmW exeW []
     (by decide)⟩

/-- A cache-write event appears in the write-helper trace exactly when both
admission gates pass: no host callbacks, and no configured threshold or a
compile time at least the threshold. -/
theorem cache_write_event_iff (cfg : Config) (putR : Except Unit Unit) (t : Rat)
    (hcbs : List Nat) :
    (_cache_write cfg putR t hcbs).2.any isCacheWrite =
      (hcbs.isEmpty &&
        (decide (cfg.persistent_cache_min_compile_time_secs = 0) ||
         decide (cfg.persistent_cache_min_compile_time_secs ≤ t))) := by
  unfold _cache_write
  by_cases hc : hcbs.isEmpty
  · rw [hc]
    by_cases hmin : cfg.persistent_cache_min_compile_time_secs ≠ 0 ∧
        t < cfg.persistent_cache_min_compile_time_secs
    · have h1 : ¬ cfg.persistent_cache_min_compile_time_secs = 0 := hmin.1
      have h2 : ¬ cfg.persistent_cache_min_compile_time_secs ≤ t := not_le.mpr hmin.2
      simp [hmin, h1, h2, isCacheWrite]
    · have hor : cfg.persistent_cache_min_compile_time_secs = 0 ∨
          cfg.persistent_cache_min_compile_time_secs ≤ t := by
        rcases not_and_or.mp hmin with h | h
        · exact Or.inl (not_not.mp h)
        · exact Or.inr (not_lt.mp h)
      rcases putR with u | u <;>
        by_cases hr : cfg.raise_persistent_cache_errors <;>
          rcases hor with h | h <;>
            simp [hmin, hr, h, isCacheWrite]
  · simp [hc, isCacheWrite]

/-- When either admission gate fails, the write helper returns normally
without touching the persistent cache. -/
theorem cache_write_skip_ok (cfg : Config) (putR : Except Unit Unit) (t : Rat)
    (hcbs : List Nat)
    (h : hcbs ≠ [] ∨ (cfg.persistent_cache_min_compile_time_secs ≠ 0 ∧
      t < cfg.persistent_cache_min_compile_time_secs)) :
    (_cache_write cfg putR t hcbs).1 = Except.ok () := by
  unfold _cache_write
  rcases h with h | h
  · simp [h]
  · rcases hc : hcbs.isEmpty with hv | hv
    · simp [hc]
    · simp [hc, h]

/-- On an eligible miss whose write helper returns normally, the
orchestrator returns the freshly compiled executable. -/
theorem miss_result_ok (cfg : Config) (env : Env) (backend : Backend)
    (computation : IRModule) (putR : Except Unit Unit) (tm : Timing)
    (compiled : Exe) (hcbs : List Nat) (tOpt : Option Int)
    (hu : use_compilation_cache env backend = true)
    (hw : (_cache_write cfg putR tm.compileTime hcbs).1 = Except.ok ()) :
    (compile_or_get_cached cfg env backend computation (Except.ok (none, tOpt)) putR tm
        compiled hcbs).1 = Except.ok compiled := by
  unfold compile_or_get_cached _cache_read
  rw [hu]
  simp [hw, backend_compile]

/-- C3: after an eligible miss and a successful compile, the persistent
cache put happens exactly when host callbacks are absent and the
threshold gate passes (no configured minimum, or a compile time at least
the minimum); when a gate fails no write occurs and the executable is
still returned. -/
theorem claim_C3_write_admission (cfg : Config) (env : Env) (backend : Backend)
    (computation : IRModule) (putR : Except Unit Unit) (tm : Timing)
    (compiled : Exe) (hcbs : List Nat) (tOpt : Option Int)
    (hu : use_compilation_cache env backend = true) :
    ((compile_or_get_cached cfg env backend computation (Except.ok (none, tOpt)) putR tm
        compiled hcbs).2.any isCacheWrite =
      (hcbs.isEmpty &&
        (decide (cfg.persistent_cache_min_compile_time_secs = 0) ||
         decide (cfg.persistent_cache_min_compile_time_secs ≤ tm.compileTime))))
    ∧ (hcbs ≠ [] →
        (compile_or_get_cached cfg env backend computation (Except.ok (none, tOpt)) putR tm
            compiled hcbs).1 = Except.ok compiled)
    ∧ (cfg.persistent_cache_min_compile_time_secs ≠ 0 →
        tm.compileTime < cfg.persistent_cache_min_compile_time_secs →
        (compile_or_get_cached cfg env backend computation (Except.ok (none, tOpt)) putR tm
            compiled hcbs).1 = Except.ok compiled) := by
  refine ⟨?_, ?_, ?_⟩
  · have hwe := cache_write_event_iff cfg putR tm.compileTime hcbs
    unfold compile_or_get_cached _cache_read
    rw [hu]
    rcases hw : _cache_write cfg putR tm.compileTime hcbs with ⟨res, evs⟩
    rw [hw] at hwe
    by_cases hd : cfg.dump_ir_to = "" <;>
      rcases res with e | v <;>
        simp [hw, hd, isCacheWrite] <;> simpa using hwe
  · intro h
    exact miss_result_ok cfg env backend computation putR tm compiled hcbs tOpt hu
      (cache_write_skip_ok cfg putR tm.compileTime hcbs (Or.inl h))
  · intro h1 h2
    exact miss_result_ok cfg env backend computation putR tm compiled hcbs tOpt hu
      (cache_write_skip_ok cfg putR tm.compileTime hcbs (Or.inr ⟨h1, h2⟩))

/-- Witness for C3 on a miss with a non-empty host-callbacks list: the
compile still returns, and no cache write occurs. -/
theorem claim_C3_witness :
    use_compilation_cache envW backendTpu = true ∧
    (((compile_or_get_cached cfgW envW backendTpu moduleW (Except.ok (none, none))
        (Except.ok ()) tmW exeW [1]).2.any isCacheWrite =
      (([1] : List Nat).isEmpty &&
        (decide (cfgW.persistent_cache_min_compile_time_secs = 0) ||
         decide (cfgW.persistent_cache_min_compile_time_secs ≤ tmW.compileTime))))
    ∧ (([1] : List Nat) ≠ [] →
        (compile_or_get_cached cfgW envW backendTpu moduleW (Except.ok (none, none))
            (Except.ok ()) tmW exeW [1]).1 = Except.ok exeW)
    ∧ (cfgW.persistent_cache_min_compile_time_secs ≠ 0 →
        tmW.compileTime < cfgW.persistent_cache_min_compile_time_secs →
        (compile_or_get_cached cfgW envW backendTpu moduleW (Except.ok (none, none))
            (Except.ok ()) tmW exeW [1]).1 = Except.ok exeW)) :=
  ⟨by decide,
   claim_C3_write_admission cfgW envW backendTpu moduleW (Except.ok ()) tmW exeW [1] none
     (by decide)⟩

/-- C10: on an eligible request, whenever the persistent-cache get returns
either (None, None) or a pair with both components present, the hit-path
assertion on the retrieved compile time cannot fail; but a get returning an
executable paired with a missing duration aborts the request with the
assertion error instead of degrading to a miss, and no compile happens. -/
theorem claim_C10_hit_assertion (cfg : Config) (env : Env) (backend : Backend)
    (computation : IRModule) (putR : Except Unit Unit) (tm : Timing)
    (compiled : Exe) (hcbs : List Nat) (e : Exe)
    (hu : use_compilation_cache env backend = true) :
    (∀ getR : Except Unit (Option Exe × Option Int),
      (∀ x, getR = Except.ok x → x = (none, none) ∨ ∃ ex t, x = (some ex, some t)) →
      (compile_or_get_cached cfg env backend computation getR putR tm compiled
          hcbs).1 ≠ Except.error Err.assertionError)
    ∧ (compile_or_get_cached cfg env backend computation (Except.ok (some e, none)) putR
        tm compiled hcbs).1 = Except.error Err.assertionError
    ∧ (compile_or_get_cached cfg env backend computation (Except.ok (some e, none)) putR
        tm compiled hcbs).2.any isCompileCall = false := by
  have hwa := cache_write_no_assertion cfg putR tm.compileTime hcbs
  refine ⟨?_, ?_, ?_⟩
  · intro getR hpre
    unfold compile_or_get_cached _cache_read
    rw [hu]
    rcases hw : _cache_write cfg putR tm.compileTime hcbs with ⟨res, evs⟩
    rw [hw] at hwa
    rcases getR with u | ⟨a, b⟩
    · by_cases hr : cfg.raise_persistent_cache_errors <;>
        rcases res with er | v <;>
          simp_all [hw]
    · rcases hpre (a, b) rfl with h | ⟨ex, t, h⟩
      · rw [Prod.mk.injEq] at h
        rcases res with er | v <;> simp_all [hw]
      · rw [Prod.mk.injEq] at h
        rcases res with er | v <;> simp_all [hw]
  · unfold compile_or_get_cached _cache_read
    rw [hu]
    simp
  · unfold compile_or_get_cached _cache_read
    rw [hu]
    by_cases hd : cfg.dump_ir_to = "" <;> simp [hd, isCompileCall]

/-- Witness for C10: a well-behaved get (a miss pair) never trips the
assertion, while an executable paired with a missing duration aborts. -/
theorem claim_C10_witness :
    (compile_or_get_cached cfgW envW backendTpu moduleW (Except.ok (some exeHit, none))
        (Except.ok ()) tmW exeW []).1 = Except.error Err.assertionError ∧
    (compile_or_get_cached cfgW envW backendTpu moduleW (Except.ok (none, none))
        (Except.ok ()) tmW exeW []).1 ≠ Except.error Err.assertionError :=
  ⟨(claim_C10_hit_assertion cfgW envW backendTpu moduleW (Except.ok ()) tmW exeW [] exeHit
      (by decide)).2.1,
   (claim_C10_hit_assertion cfgW envW backendTpu moduleW (Except.ok ()) tmW exeW [] exeHit
      (by decide)).1 (Except.ok (none, none))
     (fun x hx => Or.inl (Except.ok.inj hx).symm)⟩
